import Mathlib

/-!
# Verification of the cogtheia AtomSpace service

Shallow embedding of the enhanced `AtomSpaceService` found in
`packages/ai-opencog/src/node/atomspace-service.ts` (the second, learning-enabled
version of the class, lines 256-931 of the concatenated file) together with the
data model of `packages/ai-opencog/src/common/opencog-types.ts` (enhanced
version).  JavaScript numbers are modelled as rationals, JavaScript `Map`
objects as insertion-ordered association lists, and optional fields as
`Option`.  All definitions are executable.
-/

/-- Truth value attached to an atom; `interface TruthValue` in opencog-types.ts. -/
structure TruthValue where
  strength : ℚ
  confidence : ℚ
deriving DecidableEq, Repr

/-- Attention value attached to an atom; `interface AttentionValue` in opencog-types.ts. -/
structure AttentionValue where
  sti : ℚ
  lti : ℚ
  vlti : ℚ
deriving DecidableEq, Repr

/-- Model of a JavaScript `Record<string, any>` whose values are kept opaque as strings. -/
abbrev MetaMap := List (String × String)

/-- Model of `interface Atom` in opencog-types.ts.  The interface is recursive
through the optional `incoming` and `outgoing` atom lists, so it is an inductive
type; field accessors are defined below. -/
inductive Atom where
  | mk (id : Option String) (type : String) (name : Option String)
      (truthValue : Option TruthValue) (attentionValue : Option AttentionValue)
      (incoming : Option (List Atom)) (outgoing : Option (List Atom))
      (metadata : Option MetaMap)

/-- Accessor for the optional `id` field of an atom. -/
def Atom.id : Atom → Option String
  | .mk i _ _ _ _ _ _ _ => i

/-- Accessor for the mandatory `type` field of an atom. -/
def Atom.type : Atom → String
  | .mk _ t _ _ _ _ _ _ => t

/-- Accessor for the optional `name` field of an atom. -/
def Atom.name : Atom → Option String
  | .mk _ _ n _ _ _ _ _ => n

/-- Accessor for the optional `truthValue` field of an atom. -/
def Atom.truthValue : Atom → Option TruthValue
  | .mk _ _ _ tv _ _ _ _ => tv

/-- Accessor for the optional `attentionValue` field of an atom. -/
def Atom.attentionValue : Atom → Option AttentionValue
  | .mk _ _ _ _ av _ _ _ => av

/-- The spread `\x7b ...atom, id: atomId \x7d` used by `addAtom`: the same atom with
its `id` field replaced. -/
def Atom.withId : Atom → String → Atom
  | .mk _ t n tv av inc out md, i => .mk (some i) t n tv av inc out md

/-!
## JavaScript `Map` model

`Map.prototype.set` overwrites the value in place when the key is already
present (keeping the original insertion position) and appends at the end
otherwise; `values()` iterates in insertion order.  Keys of a `Map` are unique.
-/

/-- Model of `Map.prototype.set`: replace the (unique) binding of the key if
present, else append a new binding at the end. -/
def jsMapSet {α : Type} : List (String × α) → String → α → List (String × α)
  | [], k, v => [(k, v)]
  | p :: rest, k, v => if p.fst = k then (k, v) :: rest else p :: jsMapSet rest k v

/-- Model of `Map.prototype.get`. -/
def jsMapGet {α : Type} : List (String × α) → String → Option α
  | [], _ => none
  | p :: rest, k => if p.fst = k then some p.snd else jsMapGet rest k

/-- Model of `Map.prototype.delete`, returning the new map and whether a binding
was removed. -/
def jsMapDelete {α : Type} : List (String × α) → String → List (String × α) × Bool
  | [], _ => ([], false)
  | p :: rest, k =>
    if p.fst = k then (rest, true)
    else
      let r := jsMapDelete rest k
      (p :: r.fst, r.snd)

/-- Model of `Array.from(map.values())`. -/
def jsMapValues {α : Type} (m : List (String × α)) : List α := m.map Prod.snd

/-!
## AtomSpace store state and basic operations
-/

/-- The mutable fields of `AtomSpaceService` relevant to the atom store:
`private atoms: Map<string, Atom>` and `private nextAtomId = 1`. -/
structure AtomSpaceState where
  atoms : List (String × Atom)
  nextAtomId : Nat

/-- Embedding of `generateAtomId` (atomspace-service.ts line 600-602): the id
string built from the current counter value. -/
def generateAtomId (n : Nat) : String := "atom_" ++ toString n

/-- Embedding of `addAtom` (atomspace-service.ts lines 268-273).  The JavaScript
expression `atom.id || this.generateAtomId()` treats an absent id and the empty
string (both falsy) as missing; only in that case is the counter advanced. -/
def addAtom (s : AtomSpaceState) (atom : Atom) : AtomSpaceState × String :=
  let given : Option String :=
    match atom.id with
    | some i => if i = "" then none else some i
    | none => none
  match given with
  | some i => (⟨jsMapSet s.atoms i (atom.withId i), s.nextAtomId⟩, i)
  | none =>
    let i := generateAtomId s.nextAtomId
    (⟨jsMapSet s.atoms i (atom.withId i), s.nextAtomId + 1⟩, i)

/-- Model of `interface AtomPattern` in opencog-types.ts. -/
structure AtomPattern where
  type : Option String
  name : Option String
  truthValueThreshold : Option TruthValue
  attentionThreshold : Option AttentionValue
  bindVariables : Option MetaMap

/-- Embedding of `matchesPattern` (atomspace-service.ts lines 604-615).  Only
the `type` and `name` pattern fields are inspected; the source comment reads
"Additional pattern matching logic would go here".  A falsy (absent or empty)
pattern field is a wildcard because of the truthiness guards
`pattern.type && ...` and `pattern.name && ...`. -/
def matchesPattern (atom : Atom) (pattern : AtomPattern) : Bool :=
  let typeMismatch : Bool :=
    match pattern.type with
    | some t => if t = "" then false else decide (atom.type ≠ t)
    | none => false
  let nameMismatch : Bool :=
    match pattern.name with
    | some n => if n = "" then false else decide (atom.name ≠ some n)
    | none => false
  if typeMismatch then false
  else if nameMismatch then false
  else true

/-- Embedding of `queryAtoms` (atomspace-service.ts lines 275-285): scan the
stored atoms in insertion order and keep the ones matching the pattern. -/
def queryAtoms (s : AtomSpaceState) (pattern : AtomPattern) : List Atom :=
  (jsMapValues s.atoms).filter (fun a => matchesPattern a pattern)

/-- Embedding of `clearAtomSpace` (atomspace-service.ts lines 575-578): empties
the store and resets the id counter to 1. -/
def clearAtomSpace (_s : AtomSpaceState) : AtomSpaceState := ⟨[], 1⟩

/-- Embedding of `removeAtom` (atomspace-service.ts lines 287-289). -/
def removeAtom (s : AtomSpaceState) (atomId : String) : AtomSpaceState × Bool :=
  let r := jsMapDelete s.atoms atomId
  (⟨r.fst, s.nextAtomId⟩, r.snd)

/-- Embedding of `getAtomSpaceSize` (atomspace-service.ts lines 571-573). -/
def getAtomSpaceSize (s : AtomSpaceState) : Nat := s.atoms.length

/-!
## Export and import

`exportAtomSpace` (lines 580-583) serializes `Array.from(this.atoms.values())`
with `JSON.stringify`; `importAtomSpace` (lines 585-598) runs `JSON.parse`,
then `this.atoms.clear()`, then iterates `for (const atom of atomsArray)`,
storing each element with a truthy `id`.  The wire format is modelled by
`ImportBlob`, which distinguishes the runtime shapes the import code reacts to:

* a string rejected by `JSON.parse` (the parse throws before any mutation);
* a parsed value that is not iterable (number, boolean, null, plain object):
  the `for...of` loop throws a `TypeError` after the store was already cleared;
* a parsed string (iterable; its one-character elements have an undefined `id`
  property and are silently skipped);
* a parsed array whose elements are atom-shaped records, JSON `null` values
  (reading `.id` of `null` throws mid-loop) or other primitives (their `.id`
  is undefined, so they are skipped).

Any thrown error is caught and re-thrown as `Failed to import AtomSpace: ...`,
modelled by returning `some importFailureMessage` alongside the store that
resulted from the mutations performed so far.
-/

/-- One element of a parsed JSON array handed to `importAtomSpace`. -/
inductive ImportItem where
  | atomItem (a : Atom)
  | nullItem
  | scalarItem

/-- The parse-level shape of a string handed to `importAtomSpace`. -/
inductive ImportBlob where
  | malformed
  | nonIterableValue
  | stringValue (s : String)
  | arrayValue (items : List ImportItem)

/-- The message of the error thrown by `importAtomSpace` on failure. -/
def importFailureMessage : String := "Failed to import AtomSpace"

/-- Embedding of `exportAtomSpace` (lines 580-583): the serialized blob is the
JSON array of the stored atoms in insertion order.  `JSON.stringify` followed
by `JSON.parse` is the identity on the atom records at this level of
abstraction. -/
def exportAtomSpace (s : AtomSpaceState) : ImportBlob :=
  ImportBlob.arrayValue ((jsMapValues s.atoms).map ImportItem.atomItem)

/-- The `for (const atom of atomsArray)` loop of `importAtomSpace`: elements
with a truthy `id` are stored under that id, elements without one are skipped,
and a `null` element makes the property access `atom.id` throw, aborting the
loop with the partial store built so far. -/
def importLoop : List ImportItem → List (String × Atom) → List (String × Atom) × Option String
  | [], m => (m, none)
  | ImportItem.nullItem :: _, m => (m, some importFailureMessage)
  | ImportItem.scalarItem :: rest, m => importLoop rest m
  | ImportItem.atomItem a :: rest, m =>
    match a.id with
    | some i => if i = "" then importLoop rest m else importLoop rest (jsMapSet m i a)
    | none => importLoop rest m

/-- Embedding of `importAtomSpace` (lines 585-598).  Returns the store after
the call together with the error surfaced to the caller, if any.  Note that
`this.atoms.clear()` runs after a successful parse but before the loop, and
that `nextAtomId` is never touched. -/
def importAtomSpace (blob : ImportBlob) (s : AtomSpaceState) : AtomSpaceState × Option String :=
  match blob with
  | ImportBlob.malformed => (s, some importFailureMessage)
  | ImportBlob.nonIterableValue => (⟨[], s.nextAtomId⟩, some importFailureMessage)
  | ImportBlob.stringValue _ => (⟨[], s.nextAtomId⟩, none)
  | ImportBlob.arrayValue items =>
    let r := importLoop items []
    (⟨r.fst, s.nextAtomId⟩, r.snd)

/-- Well-formedness of the atom store, maintained by every service operation:
keys are unique (a `Map` invariant), every stored atom carries its own key as
`id`, and keys are non-empty (they come from truthy id strings). -/
def wfStore (m : List (String × Atom)) : Prop :=
  (m.map Prod.fst).Nodup ∧ ∀ p ∈ m, p.snd.id = some p.fst ∧ p.fst ≠ ""

instance (m : List (String × Atom)) : Decidable (wfStore m) := by
  unfold wfStore; infer_instance

/-!
## Reasoning
-/

/-- Model of `interface ReasoningQuery` in opencog-types.ts.  The runtime
dispatch in `reason` is over the `type` string, so the field is an open
string here. -/
structure ReasoningQuery where
  type : String
  atoms : Option (List Atom)
  context : Option MetaMap
  parameters : Option MetaMap

/-- Model of `interface ReasoningResult` in opencog-types.ts. -/
structure ReasoningResult where
  conclusion : Option (List Atom)
  confidence : ℚ
  explanation : Option String
  metadata : Option MetaMap

/-- Embedding of `performCodeAnalysis` (lines 617-624). -/
def performCodeAnalysis (_query : ReasoningQuery) : ReasoningResult :=
  ⟨some [], 7/10, some "Basic code analysis performed", some [("analysisType", "structural")]⟩

/-- Embedding of `performCodeCompletion` (lines 626-633). -/
def performCodeCompletion (_query : ReasoningQuery) : ReasoningResult :=
  ⟨some [], 8/10, some "Code completion suggestions generated", some [("completionType", "semantic")]⟩

/-- Embedding of `performDeductiveReasoning` (lines 635-642). -/
def performDeductiveReasoning (_query : ReasoningQuery) : ReasoningResult :=
  ⟨some [], 9/10, some "Deductive reasoning applied", some [("reasoningType", "deductive")]⟩

/-- Embedding of `performInductiveReasoning` (lines 644-651). -/
def performInductiveReasoning (_query : ReasoningQuery) : ReasoningResult :=
  ⟨some [], 6/10, some "Inductive reasoning applied", some [("reasoningType", "inductive")]⟩

/-- Embedding of `performAbductiveReasoning` (lines 653-660). -/
def performAbductiveReasoning (_query : ReasoningQuery) : ReasoningResult :=
  ⟨some [], 5/10, some "Abductive reasoning applied", some [("reasoningType", "abductive")]⟩

/-- Embedding of `reason` (atomspace-service.ts lines 302-322): a switch over
`query.type` whose default branch returns the fixed unknown-type result.  The
function is total, mirroring that no branch of the source can throw. -/
def reason (query : ReasoningQuery) : ReasoningResult :=
  if query.type = "code-analysis" then performCodeAnalysis query
  else if query.type = "code-completion" then performCodeCompletion query
  else if query.type = "deductive" then performDeductiveReasoning query
  else if query.type = "inductive" then performInductiveReasoning query
  else if query.type = "abductive" then performAbductiveReasoning query
  else ⟨some [], 0, some "Unknown reasoning type", none⟩

/-- The five reasoning strategy types recognized by the switch in `reason`. -/
def recognizedReasoningTypes : List String :=
  ["code-analysis", "code-completion", "deductive", "inductive", "abductive"]

/-!
## Pattern recognition
-/

/-- The shapes of `PatternInput.data` exercised by the repository: numeric
sequences, string sequences and raw text. -/
inductive PatternData where
  | nums (xs : List ℚ)
  | strs (xs : List String)
  | text (s : String)
deriving DecidableEq, Repr

/-- Model of `interface PatternInput` in opencog-types.ts. -/
structure PatternInput where
  data : PatternData
  context : Option MetaMap
  scope : Option String
deriving DecidableEq, Repr

/-- The `pattern` field of a `PatternResult`.  The implementation under test
only ever constructs the `basic` shape (lines 561-569); the
`arithmeticSequence` shape is the one the repository test suite
(`should recognize structural patterns in numeric sequences`) looks for. -/
inductive PatternDesc where
  | basic (data : PatternData)
  | arithmeticSequence (commonDifference : ℚ)
deriving DecidableEq, Repr

/-- Model of `interface PatternResult` in opencog-types.ts. -/
structure PatternResult where
  pattern : PatternDesc
  confidence : ℚ
  instances : List PatternData
  metadata : Option MetaMap
deriving DecidableEq, Repr

/-- Checks whether a pattern description is an arithmetic-sequence report. -/
def isArithmeticSequenceDesc : PatternDesc → Bool
  | PatternDesc.arithmeticSequence _ => true
  | _ => false

/-- Embedding of `recognizePatterns` (atomspace-service.ts lines 561-569): a
single fixed result echoing the input data, with confidence 0.5, no instances
and a timestamp metadata entry.  The `now` argument stands for `Date.now()`. -/
def recognizePatterns (input : PatternInput) (now : Nat) : List PatternResult :=
  [⟨PatternDesc.basic input.data, 1/2, [], some [("timestamp", toString now)]⟩]

/-!
## Learning data model
-/

/-- The six `LearningData.type` tags of opencog-types.ts (enhanced version). -/
inductive LearningType where
  | supervised
  | unsupervised
  | reinforcement
  | personalization
  | behavioral
  | adaptive
deriving DecidableEq, Repr

/-- The `outcome` values of `interface UserFeedback`. -/
inductive Outcome where
  | accepted
  | rejected
  | modified
  | ignored
deriving DecidableEq, Repr

/-- Model of `interface UserFeedback` in opencog-types.ts. -/
structure UserFeedback where
  rating : ℚ
  helpful : Bool
  comment : Option String
  actionTaken : Option String
  timeSpent : Option ℚ
  outcome : Option Outcome
deriving DecidableEq, Repr

/-- Model of a JavaScript context object: an ordered record of string keys.
Used both for the free-form `context: any` arguments and for
`Record<string, any>` fields, with values kept opaque as strings. -/
abbrev Ctx := List (String × String)

/-- Model of `interface LearningContext` in opencog-types.ts. -/
structure LearningContext where
  userId : Option String
  workspaceId : Option String
  projectType : Option String
  currentTask : Option String
  userExperience : Option String
  preferences : Option Ctx
  environmentInfo : Option Ctx
deriving DecidableEq, Repr

/-- The shapes taken by the `input: any` field of `LearningData` in the
embedded code paths: `learnFromFeedback` stores a feedback/context pair and
`learnUserBehavior` stores an action/context pair. -/
inductive LDInput where
  | feedbackContext (feedback : UserFeedback) (context : LearningContext)
  | actionContext (action : String) (context : Ctx)
  | rawInput (s : String)
deriving DecidableEq, Repr

/-- The `priority` values of `LearningData`. -/
inductive Priority where
  | low
  | medium
  | high
  | critical
deriving DecidableEq, Repr

/-- Model of `interface LearningData` in opencog-types.ts (enhanced version). -/
structure LearningData where
  type : LearningType
  input : LDInput
  expectedOutput : Option LDInput
  feedback : Option UserFeedback
  context : Option LearningContext
  timestamp : Option Nat
  priority : Option Priority
  sessionId : Option String
deriving DecidableEq, Repr

/-- Model of `interface LearningModel` in opencog-types.ts.  The optional
`trainingData` array is created as `[]` by `createLearningModel` and defaulted
to `[]` by `updateLearningModel`, so it is a plain list here. -/
structure LearningModel where
  id : String
  type : String
  version : Nat
  accuracy : Option ℚ
  confidence : Option ℚ
  trainingData : List LearningData
  parameters : Ctx
  createdAt : Nat
  updatedAt : Nat
deriving DecidableEq, Repr

/-- Embedding of `calculateModelAccuracy` (atomspace-service.ts lines 826-839):
0.5 when there is no training data or no record carries feedback, otherwise the
fraction of feedback-bearing records whose feedback was helpful. -/
def calculateModelAccuracy (model : LearningModel) : ℚ :=
  if model.trainingData.isEmpty then 1/2
  else
    let feedbackData := model.trainingData.filter (fun d => d.feedback.isSome)
    if feedbackData.isEmpty then 1/2
    else
      let positiveCount :=
        (feedbackData.filter (fun d => (d.feedback.map UserFeedback.helpful).getD false)).length
      (positiveCount : ℚ) / (feedbackData.length : ℚ)

/-- Embedding of `updateLearningModel` (atomspace-service.ts lines 490-508).
Returns `none` when the model id is unknown (the source throws), otherwise the
updated model table and the updated model.  The `now` argument stands for
`Date.now()`. -/
def updateLearningModel (models : List (String × LearningModel)) (modelId : String)
    (trainingData : List LearningData) (now : Nat) :
    Option (List (String × LearningModel) × LearningModel) :=
  match jsMapGet models modelId with
  | none => none
  | some model =>
    let m1 : LearningModel :=
      { model with
        trainingData := model.trainingData ++ trainingData
        updatedAt := now
        version := model.version + 1 }
    let m2 : LearningModel :=
      { m1 with
        accuracy := some (calculateModelAccuracy m1)
        confidence := some (min (9/10) (calculateModelAccuracy m1 + 1/10)) }
    some (jsMapSet models modelId m2, m2)

/-- Embedding of `determinePriority` (atomspace-service.ts lines 670-675).
The `rating === 3` test runs before the `helpful === false` test. -/
def determinePriority (feedback : UserFeedback) : Priority :=
  if feedback.rating ≤ 2 then Priority.high
  else if feedback.rating = 3 then Priority.medium
  else if feedback.helpful = false then Priority.high
  else Priority.low

/-- The `supervised` learning record built by `learnFromFeedback`
(atomspace-service.ts lines 367-384) and handed to `learn`, whose history
append preserves every field except for defaulting `timestamp` and
`sessionId`; the `timestamp` is set before the call, so the recorded datum
carries exactly this `priority`. -/
def learnFromFeedbackData (feedback : UserFeedback) (context : LearningContext)
    (now : Nat) : LearningData :=
  ⟨LearningType.supervised, LDInput.feedbackContext feedback context, none,
    some feedback, some context, some now, some (determinePriority feedback), none⟩

/-!
## Behavior patterns
-/

/-- Model of `interface UserBehaviorPattern` in opencog-types.ts. -/
structure UserBehaviorPattern where
  id : String
  userId : String
  pattern : String
  frequency : Nat
  context : Ctx
  confidence : ℚ
  discovered : Nat
  lastSeen : Nat
deriving DecidableEq, Repr

/-- The fresh pattern pushed by `updateBehaviorPatterns` when no pattern with
the given action exists (lines 789-800). -/
def freshBehaviorPattern (userId action : String) (ctx : Ctx) (now : Nat) :
    UserBehaviorPattern :=
  ⟨"pattern_" ++ userId ++ "_" ++ toString now, userId, action, 1, ctx, 1/2, now, now⟩

/-- The in-place mutation performed by `updateBehaviorPatterns` on an existing
pattern (lines 785-788): frequency + 1, refresh `lastSeen`, confidence
`Math.min(1, confidence + 0.01)`. -/
def bumpBehaviorPattern (p : UserBehaviorPattern) (now : Nat) : UserBehaviorPattern :=
  { p with
    frequency := p.frequency + 1
    lastSeen := now
    confidence := min 1 (p.confidence + 1/100) }

/-- The effect of `updateBehaviorPatterns` on one user-pattern array:
`userPatterns.find(p => p.pattern === action)` locates the first matching
pattern, which is mutated in place; otherwise a fresh pattern is pushed at the
end. -/
def updatePatternList (l : List UserBehaviorPattern) (userId action : String)
    (ctx : Ctx) (now : Nat) : List UserBehaviorPattern :=
  match l with
  | [] => [freshBehaviorPattern userId action ctx now]
  | p :: rest =>
    if p.pattern = action then bumpBehaviorPattern p now :: rest
    else p :: updatePatternList rest userId action ctx now

/-- The `private userBehaviorPatterns: Map<string, UserBehaviorPattern[]>`
field of the service. -/
abbrev BehaviorState := List (String × List UserBehaviorPattern)

/-- Embedding of `updateBehaviorPatterns` (atomspace-service.ts lines 779-804). -/
def updateBehaviorPatterns (st : BehaviorState) (userId action : String)
    (ctx : Ctx) (now : Nat) : BehaviorState :=
  jsMapSet st userId (updatePatternList ((jsMapGet st userId).getD []) userId action ctx now)

/-- The effect of `learnUserBehavior` (lines 427-440) on the
`userBehaviorPatterns` table.  The call runs `updateBehaviorPatterns` twice:
once inside `learn` via the `behavioral` dispatch to
`processBehavioralLearning` (lines 708-717), which fires when the merged
context `\x7b userId, ...context \x7d` has a truthy `userId` and the action string is
truthy, using the merged user id; and once directly afterwards with the
original `userId`.  The other effects of `learnUserBehavior` (the history
append and the `LearningRecord` atom) do not touch this table. -/
def learnUserBehaviorPatterns (st : BehaviorState) (userId action : String)
    (ctx : Ctx) (now : Nat) : BehaviorState :=
  let mergedUserId := (jsMapGet ctx "userId").getD userId
  let st1 :=
    if mergedUserId ≠ "" ∧ action ≠ "" then
      updateBehaviorPatterns st mergedUserId action ctx now
    else st
  updateBehaviorPatterns st1 userId action ctx now

/-- The lookup `userPatterns.find(p => p.pattern === action)` on one list. -/
def findInList (l : List UserBehaviorPattern) (action : String) : Option UserBehaviorPattern :=
  match l with
  | [] => none
  | p :: rest => if p.pattern = action then some p else findInList rest action

/-- The stored behavior pattern of a user for a given action. -/
def findBehaviorPattern (st : BehaviorState) (userId action : String) :
    Option UserBehaviorPattern :=
  findInList ((jsMapGet st userId).getD []) action



/-!
## Supporting lemmas
-/

lemma jsMapSet_of_not_mem {α : Type} (m : List (String × α)) (k : String) (v : α)
    (h : ∀ p ∈ m, p.fst ≠ k) : jsMapSet m k v = m ++ [(k, v)] := by
  induction m with
  | nil => rfl
  | cons p rest ih =>
    have hp : p.fst ≠ k := h p (List.mem_cons_self p rest)
    simp only [jsMapSet, if_neg hp, List.cons_append, List.cons.injEq, true_and]
    exact ih (fun q hq => h q (List.mem_cons_of_mem p hq))

lemma importLoop_eq_append (l : List (String × Atom)) (m : List (String × Atom))
    (hid : ∀ p ∈ l, p.snd.id = some p.fst ∧ p.fst ≠ "")
    (hnodup : (l.map Prod.fst).Nodup)
    (hdisj : ∀ p ∈ l, ∀ q ∈ m, q.fst ≠ p.fst) :
    importLoop ((l.map Prod.snd).map ImportItem.atomItem) m = (m ++ l, none) := by
  induction l generalizing m with
  | nil => simp [importLoop]
  | cons p rest ih =>
    obtain ⟨hpid, hpne⟩ := hid p (List.mem_cons_self p rest)
    have hfresh : ∀ q ∈ m, q.fst ≠ p.fst := fun q hq => hdisj p (List.mem_cons_self p rest) q hq
    have hset : jsMapSet m p.fst p.snd = m ++ [(p.fst, p.snd)] :=
      jsMapSet_of_not_mem m p.fst p.snd hfresh
    have hself : (p.fst, p.snd) = p := rfl
    simp only [List.map_cons, importLoop, hpid, if_neg hpne, hset, hself]
    have hnodup2 : (p.fst :: rest.map Prod.fst).Nodup := by simpa using hnodup
    rw [ih (m ++ [p])
      (fun q hq => hid q (List.mem_cons_of_mem p hq))
      (List.nodup_cons.mp hnodup2).2
      (fun x hx q hq => by
        rcases List.mem_append.mp hq with hq1 | hq2
        · exact hdisj x (List.mem_cons_of_mem p hx) q hq1
        · have hq3 : q = p := by simpa using hq2
          subst hq3
          have hxk : x.fst ∈ rest.map Prod.fst := List.mem_map_of_mem Prod.fst hx
          have hnotin := (List.nodup_cons.mp hnodup2).1
          intro hcontra
          exact hnotin (by simpa [hcontra] using hxk))]
    simp

/-- An export-shaped blob round-trips through the import loop. -/
lemma importAtomSpace_export (s : AtomSpaceState) (h : wfStore s.atoms) :
    importAtomSpace (exportAtomSpace s) (clearAtomSpace s) = (⟨s.atoms, 1⟩, none) := by
  obtain ⟨hnodup, hids⟩ := h
  have key := importLoop_eq_append s.atoms [] hids hnodup (by simp)
  have key2 : importLoop (s.atoms.map (ImportItem.atomItem ∘ Prod.snd)) [] = (s.atoms, none) := by
    simpa [List.map_map] using key
  simp [exportAtomSpace, clearAtomSpace, importAtomSpace, jsMapValues, key2]

/-- C1: for every well-formed store state (keys unique, each stored atom
carrying its own non-empty key as id, as every reachable store is), calling
`exportAtomSpace`, then `clearAtomSpace`, then `importAtomSpace` with the
exported blob leaves the store containing exactly the atoms it held before the
export, with the same ids and the same field contents, and raises no import
error. -/
theorem c1_export_clear_import_roundtrip (s : AtomSpaceState) (h : wfStore s.atoms) :
    (importAtomSpace (exportAtomSpace s) (clearAtomSpace s)).fst.atoms = s.atoms ∧
    (importAtomSpace (exportAtomSpace s) (clearAtomSpace s)).snd = none := by
  rw [importAtomSpace_export s h]
  exact ⟨rfl, rfl⟩

/-- A concrete two-atom store for exercising the round-trip law. -/
def c1DemoAtomA : Atom :=
  Atom.mk (some "atom_1") "ConceptNode" (some "concept1") (some ⟨7/10, 8/10⟩) none none none none

/-- Second concrete atom of the round-trip demo store. -/
def c1DemoAtomB : Atom :=
  Atom.mk (some "atom_2") "ConceptNode" (some "concept2") (some ⟨9/10, 6/10⟩) none none none none

/-- The demo store reached by adding the two demo atoms to a fresh service. -/
def c1DemoState : AtomSpaceState :=
  ⟨[("atom_1", c1DemoAtomA), ("atom_2", c1DemoAtomB)], 3⟩

/-- Witness for C1 at a concrete store. -/
theorem c1_export_clear_import_roundtrip_witness :
    wfStore c1DemoState.atoms ∧
    (importAtomSpace (exportAtomSpace c1DemoState) (clearAtomSpace c1DemoState)).fst.atoms
      = c1DemoState.atoms :=
  ⟨by decide, (c1_export_clear_import_roundtrip c1DemoState (by decide)).1⟩

lemma matchesPattern_true_iff (a : Atom) (p : AtomPattern) :
    matchesPattern a p = true ↔
      (∀ t, p.type = some t → t ≠ "" → a.type = t) ∧
      (∀ n, p.name = some n → n ≠ "" → a.name = some n) := by
  rcases p with ⟨ty, nm, tvt, att, bv⟩
  rcases ty with _ | t
  · rcases nm with _ | n
    · simp [matchesPattern]
    · by_cases hn : n = ""
      · simp [matchesPattern, hn]
      · by_cases han : a.name = some n
        · simp [matchesPattern, hn, han]
        · simp [matchesPattern, hn, han]
  · rcases nm with _ | n
    · by_cases ht : t = ""
      · simp [matchesPattern, ht]
      · by_cases hat : a.type = t
        · simp [matchesPattern, ht, hat]
        · simp [matchesPattern, ht, hat]
    · by_cases ht : t = "" <;> by_cases hn : n = "" <;>
        by_cases hat : a.type = t <;> by_cases han : a.name = some n <;>
        simp [matchesPattern, ht, hn, hat, han]

/-- C2 (amended): `queryAtoms(P)` includes a stored atom `A` iff the `type`
field of `P` is absent, empty or equal to the type of `A`, and likewise for
`name`; the `truthValueThreshold`, `attentionThreshold` and `bindVariables`
fields of the pattern are ignored entirely. -/
theorem c2_amended_matching :
    (∀ (s : AtomSpaceState) (p : AtomPattern) (a : Atom),
        a ∈ queryAtoms s p ↔
          a ∈ jsMapValues s.atoms ∧
            (∀ t, p.type = some t → t ≠ "" → a.type = t) ∧
            (∀ n, p.name = some n → n ≠ "" → a.name = some n)) ∧
    (∀ (s : AtomSpaceState) (ty nm : Option String) (tvt tvt2 : Option TruthValue)
        (att att2 : Option AttentionValue) (bv bv2 : Option MetaMap),
        queryAtoms s ⟨ty, nm, tvt, att, bv⟩ = queryAtoms s ⟨ty, nm, tvt2, att2, bv2⟩) := by
  constructor
  · intro s p a
    simp only [queryAtoms, List.mem_filter, matchesPattern_true_iff, and_assoc]
  · intro s ty nm tvt tvt2 att att2 bv bv2
    rfl

/-- An atom whose truth value lies strictly below a query threshold. -/
def c2WeakAtom : Atom :=
  Atom.mk (some "atom_1") "ConceptNode" (some "weak") (some ⟨1/10, 1/10⟩) none none none none

/-- A store holding only the weak atom. -/
def c2State : AtomSpaceState := ⟨[("atom_1", c2WeakAtom)], 2⟩

/-- A pattern with a present truth-value threshold of 0.5/0.5. -/
def c2ThresholdPattern : AtomPattern :=
  ⟨some "ConceptNode", none, some ⟨1/2, 1/2⟩, none, none⟩

/-- C2 counterexample: the pattern presents a `truthValueThreshold` of
strength 0.5 which the stored atom (strength 0.1) does not meet, yet
`queryAtoms` still returns the atom — the threshold fields are never
consulted, contradicting the claimed matching rule. -/
theorem c2_counterexample :
    queryAtoms c2State c2ThresholdPattern = [c2WeakAtom] ∧
    c2ThresholdPattern.truthValueThreshold = some ⟨1/2, 1/2⟩ ∧
    c2WeakAtom.truthValue = some ⟨1/10, 1/10⟩ ∧
    ((1 : ℚ)/10 < 1/2) :=
  ⟨rfl, rfl, rfl, by norm_num⟩

/-- Witness for the amended C2 at a concrete store and pattern. -/
theorem c2_amended_matching_witness :
    c2WeakAtom ∈ queryAtoms c2State ⟨none, none, none, none, none⟩ :=
  (c2_amended_matching.1 c2State ⟨none, none, none, none, none⟩ c2WeakAtom).mpr
    ⟨by simp [c2State, jsMapValues], by simp, by simp⟩

/-- An atom held by the store before the failed import. -/
def c3Atom : Atom := Atom.mk (some "atom_1") "ConceptNode" (some "kept") none none none none none

/-- The store before the malformed import. -/
def c3State : AtomSpaceState := ⟨[("atom_1", c3Atom)], 2⟩

/-- Model of the input string `[1,2]`: valid JSON, but an array of numbers
rather than of atom records. -/
def c3NonRecordArray : ImportBlob :=
  ImportBlob.arrayValue [ImportItem.scalarItem, ImportItem.scalarItem]

/-- C3 counterexample: importing the string `[1,2]` — malformed in the sense
of the claim, since it is not an array of atom records — raises no error at
all and clears the store instead of leaving it unchanged: both halves of the
claimed all-or-nothing behaviour fail. -/
theorem c3_counterexample :
    (importAtomSpace c3NonRecordArray c3State).snd = none ∧
    (importAtomSpace c3NonRecordArray c3State).fst.atoms = [] ∧
    c3State.atoms ≠ [] :=
  ⟨rfl, rfl, by simp [c3State]⟩

/-- C3 (amended): only an input string rejected by `JSON.parse` is guaranteed
to surface an import error while leaving the store exactly as it was; input
that parses but is not an array of atom records can clear the store, and can
even succeed silently. -/
theorem c3_amended_parse_failure (s : AtomSpaceState) :
    importAtomSpace ImportBlob.malformed s = (s, some importFailureMessage) := rfl

/-- A reasoning query whose type is none of the five recognized strategies. -/
def hybridQuery : ReasoningQuery := ⟨"hybrid", none, none, none⟩

/-- The average of the confidences of the five strategies, which hybrid
reasoning as claimed would have to return given that no strategy can fail. -/
def strategyAverageConfidence : ℚ :=
  ((performDeductiveReasoning hybridQuery).confidence +
   (performInductiveReasoning hybridQuery).confidence +
   (performAbductiveReasoning hybridQuery).confidence +
   (performCodeAnalysis hybridQuery).confidence +
   (performCodeCompletion hybridQuery).confidence) / 5

lemma reason_default (q : ReasoningQuery) (h : q.type ∉ recognizedReasoningTypes) :
    reason q = ⟨some [], 0, some "Unknown reasoning type", none⟩ := by
  simp only [recognizedReasoningTypes, List.mem_cons, List.not_mem_nil, or_false,
    not_or] at h
  obtain ⟨h1, h2, h3, h4, h5⟩ := h
  simp [reason, h1, h2, h3, h4, h5]

/-- C4 counterexample: for the unrecognized query type `hybrid` the code
returns the fixed unknown-type result with confidence 0, not the average of
the strategy confidences (0.7) that the claimed hybrid combination of the
five never-failing strategies would produce, and its explanation is the
literal `Unknown reasoning type`, not joined strategy explanations. -/
theorem c4_counterexample :
    (reason hybridQuery).confidence = 0 ∧
    (reason hybridQuery).explanation = some "Unknown reasoning type" ∧
    strategyAverageConfidence = 7/10 ∧
    (reason hybridQuery).confidence ≠ strategyAverageConfidence := by
  have h0 : (reason hybridQuery).confidence = 0 := rfl
  have h1 : strategyAverageConfidence = 7/10 := by
    norm_num [strategyAverageConfidence, performDeductiveReasoning,
      performInductiveReasoning, performAbductiveReasoning, performCodeAnalysis,
      performCodeCompletion]
  refine ⟨h0, rfl, h1, ?_⟩
  rw [h0, h1]
  norm_num

/-- C4 (amended): for every reasoning query whose type is not one of the five
named strategy types, `reason` does not invoke any strategy; it returns the
fixed result with empty conclusion, confidence 0 and explanation
`Unknown reasoning type`. -/
theorem c4_amended_default_branch (q : ReasoningQuery)
    (h : q.type ∉ recognizedReasoningTypes) :
    reason q = ⟨some [], 0, some "Unknown reasoning type", none⟩ :=
  reason_default q h

/-- Witness for the amended C4 at the concrete query type `hybrid`. -/
theorem c4_amended_default_branch_witness :
    hybridQuery.type ∉ recognizedReasoningTypes ∧
    reason hybridQuery = ⟨some [], 0, some "Unknown reasoning type", none⟩ :=
  ⟨by decide, c4_amended_default_branch hybridQuery (by decide)⟩

/-- C6: for every reasoning query whose type is not a recognized strategy
type, `reason` (a total function — no branch of the source can throw) returns
confidence exactly 0 and a non-empty explanation string. -/
theorem c6_unknown_type_never_throws (q : ReasoningQuery)
    (h : q.type ∉ recognizedReasoningTypes) :
    (reason q).confidence = 0 ∧
    ∃ e, (reason q).explanation = some e ∧ 0 < e.length := by
  rw [reason_default q h]
  exact ⟨rfl, "Unknown reasoning type", rfl, by decide⟩

/-- A second concrete unrecognized query type, for the C6 witness. -/
def unknownQuery : ReasoningQuery := ⟨"analogical", none, none, none⟩

/-- Witness for C6 at a concrete unrecognized query. -/
theorem c6_unknown_type_never_throws_witness :
    unknownQuery.type ∉ recognizedReasoningTypes ∧
    (reason unknownQuery).confidence = 0 :=
  ⟨by decide, (c6_unknown_type_never_throws unknownQuery (by decide)).1⟩

/-- The arithmetic-sequence input of the failing test case. -/
def c5Input : PatternInput :=
  ⟨PatternData.nums [1, 3, 5, 7, 9, 11], none, some "local"⟩

/-- C5 (evaluation at the failing input): `recognizePatterns` on the
arithmetic sequence `[1,3,5,7,9,11]` returns exactly one result — the fixed
`basic` echo with confidence 0.5 — so no returned result is an
arithmetic-sequence pattern and none has confidence above 0.5, contradicting
the repository test `should recognize structural patterns in numeric
sequences` and the claim. -/
theorem c5_stub_recognizer_at_failing_input :
    recognizePatterns c5Input 0 =
      [⟨PatternDesc.basic (PatternData.nums [1, 3, 5, 7, 9, 11]), 1/2, [],
        some [("timestamp", "0")]⟩] ∧
    (recognizePatterns c5Input 0).all
      (fun r => !isArithmeticSequenceDesc r.pattern && decide (r.confidence ≤ 1/2)) = true := by
  constructor
  · rfl
  · simp [recognizePatterns, c5Input, isArithmeticSequenceDesc]

lemma jsMapGet_jsMapSet_self {α : Type} (m : List (String × α)) (k : String) (v : α) :
    jsMapGet (jsMapSet m k v) k = some v := by
  induction m with
  | nil => simp [jsMapSet, jsMapGet]
  | cons p rest ih =>
    by_cases hp : p.fst = k
    · simp [jsMapSet, jsMapGet, hp]
    · simp [jsMapSet, jsMapGet, hp, ih]

lemma findInList_update_of_found (l : List UserBehaviorPattern) (userId action : String)
    (ctx : Ctx) (now : Nat) (p : UserBehaviorPattern) (h : findInList l action = some p) :
    findInList (updatePatternList l userId action ctx now) action =
      some (bumpBehaviorPattern p now) := by
  induction l with
  | nil => simp [findInList] at h
  | cons q rest ih =>
    by_cases hq : q.pattern = action
    · have hqp : q = p := by simpa [findInList, hq] using h
      subst hqp
      have hbump : (bumpBehaviorPattern q now).pattern = action := hq
      simp [updatePatternList, hq, findInList, hbump]
    · have htail : findInList rest action = some p := by simpa [findInList, hq] using h
      simp [updatePatternList, hq, findInList, ih htail]

lemma findInList_update_of_none (l : List UserBehaviorPattern) (userId action : String)
    (ctx : Ctx) (now : Nat) (h : findInList l action = none) :
    findInList (updatePatternList l userId action ctx now) action =
      some (freshBehaviorPattern userId action ctx now) := by
  induction l with
  | nil =>
    have hfresh : (freshBehaviorPattern userId action ctx now).pattern = action := rfl
    simp [updatePatternList, findInList, hfresh]
  | cons q rest ih =>
    have hq : ¬ q.pattern = action := by
      intro hcontra
      simp [findInList, hcontra] at h
    have htail : findInList rest action = none := by simpa [findInList, hq] using h
    simp [updatePatternList, hq, findInList, ih htail]

lemma findBehaviorPattern_update_of_found (st : BehaviorState) (userId action : String)
    (ctx : Ctx) (now : Nat) (p : UserBehaviorPattern)
    (h : findBehaviorPattern st userId action = some p) :
    findBehaviorPattern (updateBehaviorPatterns st userId action ctx now) userId action =
      some (bumpBehaviorPattern p now) := by
  unfold findBehaviorPattern updateBehaviorPatterns at *
  rw [jsMapGet_jsMapSet_self, Option.getD_some]
  exact findInList_update_of_found _ _ _ _ _ _ h

lemma findBehaviorPattern_update_of_none (st : BehaviorState) (userId action : String)
    (ctx : Ctx) (now : Nat) (h : findBehaviorPattern st userId action = none) :
    findBehaviorPattern (updateBehaviorPatterns st userId action ctx now) userId action =
      some (freshBehaviorPattern userId action ctx now) := by
  unfold findBehaviorPattern updateBehaviorPatterns at *
  rw [jsMapGet_jsMapSet_self, Option.getD_some]
  exact findInList_update_of_none _ _ _ _ _ h

/-- C7 (amended): because `learnUserBehavior` updates the behavior-pattern
table twice — once through the `behavioral` dispatch of `learn` and once
directly — each call with a non-empty user id and action, and a context that
does not override the user id, increases the stored frequency by exactly 2
(the first call leaves frequency 2: created at 1, then bumped) and applies the
capped confidence increment twice; confidence never decreases when starting at
most 1, never exceeds 1, and frequency strictly increases. -/
theorem c7_amended_double_update (st : BehaviorState) (userId action : String) (ctx : Ctx)
    (now : Nat) (hu : userId ≠ "") (ha : action ≠ "") (hctx : jsMapGet ctx "userId" = none) :
    (∀ p, findBehaviorPattern st userId action = some p →
        findBehaviorPattern (learnUserBehaviorPatterns st userId action ctx now) userId action =
          some { p with
                 frequency := p.frequency + 2
                 lastSeen := now
                 confidence := min 1 (min 1 (p.confidence + 1/100) + 1/100) }) ∧
    (findBehaviorPattern st userId action = none →
        findBehaviorPattern (learnUserBehaviorPatterns st userId action ctx now) userId action =
          some { freshBehaviorPattern userId action ctx now with
                 frequency := 2
                 confidence := min 1 (1/2 + 1/100) }) ∧
    (∀ (q : UserBehaviorPattern) (t : Nat), q.confidence ≤ 1 →
        q.frequency < (bumpBehaviorPattern q t).frequency ∧
        q.confidence ≤ (bumpBehaviorPattern q t).confidence ∧
        (bumpBehaviorPattern q t).confidence ≤ 1) := by
  have hrun : learnUserBehaviorPatterns st userId action ctx now =
      updateBehaviorPatterns (updateBehaviorPatterns st userId action ctx now)
        userId action ctx now := by
    simp [learnUserBehaviorPatterns, hctx, hu, ha]
  refine ⟨?_, ?_, ?_⟩
  · intro p hp
    rw [hrun,
      findBehaviorPattern_update_of_found _ _ _ _ _ _
        (findBehaviorPattern_update_of_found st userId action ctx now p hp)]
    rfl
  · intro hnone
    rw [hrun,
      findBehaviorPattern_update_of_found _ _ _ _ _ _
        (findBehaviorPattern_update_of_none st userId action ctx now hnone)]
    rfl
  · intro q t hq
    refine ⟨Nat.lt_succ_self _, ?_, ?_⟩
    · show q.confidence ≤ min 1 (q.confidence + 1/100)
      exact le_min hq (by linarith)
    · show min 1 (q.confidence + 1/100) ≤ 1
      exact min_le_left _ _

/-- The behavior-pattern table after one call of `learnUserBehavior`. -/
def c7AfterOneCall : BehaviorState := learnUserBehaviorPatterns [] "u" "open_file" [] 0

/-- The behavior-pattern table after a second, identical call. -/
def c7AfterTwoCalls : BehaviorState := learnUserBehaviorPatterns c7AfterOneCall "u" "open_file" [] 1

/-- C7 counterexample: after the first `learnUserBehavior("u", "open_file",
ctx)` call on an empty table the stored frequency is already 2, and after the
second call it is 4 — the per-call increment is 2, not the claimed exactly 1. -/
theorem c7_counterexample :
    (findBehaviorPattern c7AfterOneCall "u" "open_file").map UserBehaviorPattern.frequency
      = some 2 ∧
    (findBehaviorPattern c7AfterTwoCalls "u" "open_file").map UserBehaviorPattern.frequency
      = some 4 ∧
    (4 : Nat) ≠ 2 + 1 :=
  ⟨rfl, rfl, by decide⟩

/-- Witness for the amended C7 at a concrete first call. -/
theorem c7_amended_double_update_witness :
    findBehaviorPattern (learnUserBehaviorPatterns [] "u" "open_file" [] 5) "u" "open_file" =
      some { freshBehaviorPattern "u" "open_file" [] 5 with
             frequency := 2
             confidence := min 1 (1/2 + 1/100) } :=
  (c7_amended_double_update [] "u" "open_file" [] 5 (by decide) (by decide) rfl).2.1 rfl

lemma calculateModelAccuracy_eq (m : LearningModel) :
    calculateModelAccuracy m =
      (if (m.trainingData.filter (fun d => d.feedback.isSome)).isEmpty then 1/2
       else (((m.trainingData.filter (fun d => d.feedback.isSome)).filter
                (fun d => (d.feedback.map UserFeedback.helpful).getD false)).length : ℚ)
            / ((m.trainingData.filter (fun d => d.feedback.isSome)).length : ℚ)) := by
  unfold calculateModelAccuracy
  by_cases h : m.trainingData.isEmpty
  · have hnil : m.trainingData = [] := by simpa [List.isEmpty_iff] using h
    simp [hnil]
  · simp [h]

lemma accuracy_fraction_bounds (fb : List LearningData) (h : ¬ fb.isEmpty) :
    0 ≤ ((fb.filter (fun d => (d.feedback.map UserFeedback.helpful).getD false)).length : ℚ)
        / (fb.length : ℚ) ∧
    ((fb.filter (fun d => (d.feedback.map UserFeedback.helpful).getD false)).length : ℚ)
        / (fb.length : ℚ) ≤ 1 := by
  have hne : fb ≠ [] := by simpa [List.isEmpty_iff] using h
  have hpos : 0 < (fb.length : ℚ) := by
    exact_mod_cast List.length_pos.mpr hne
  constructor
  · exact div_nonneg (by positivity) (le_of_lt hpos)
  · rw [div_le_one hpos]
    exact_mod_cast List.length_filter_le _ fb

lemma calculateModelAccuracy_bounds (m : LearningModel) :
    0 ≤ calculateModelAccuracy m ∧ calculateModelAccuracy m ≤ 1 := by
  rw [calculateModelAccuracy_eq]
  by_cases h : (m.trainingData.filter (fun d => d.feedback.isSome)).isEmpty
  · simp [h]
    norm_num
  · simp only [h, if_false]
    exact accuracy_fraction_bounds _ h

/-- C8: every successful `updateLearningModel` call increments the model
version by exactly 1, appends the new training data, recomputes accuracy as
the fraction of the feedback-bearing records of the appended training data
whose feedback was helpful (0.5 when no feedback is present), a value that
always lies in the interval 0..1, and sets confidence to the minimum of 0.9
and accuracy + 0.1. -/
theorem c8_update_learning_model (models : List (String × LearningModel)) (modelId : String)
    (data : List LearningData) (now : Nat) (model : LearningModel)
    (models2 : List (String × LearningModel)) (updated : LearningModel)
    (hfind : jsMapGet models modelId = some model)
    (hupd : updateLearningModel models modelId data now = some (models2, updated)) :
    updated.version = model.version + 1 ∧
    updated.trainingData = model.trainingData ++ data ∧
    updated.accuracy =
      some (if (updated.trainingData.filter (fun d => d.feedback.isSome)).isEmpty then 1/2
        else (((updated.trainingData.filter (fun d => d.feedback.isSome)).filter
                 (fun d => (d.feedback.map UserFeedback.helpful).getD false)).length : ℚ)
             / ((updated.trainingData.filter (fun d => d.feedback.isSome)).length : ℚ)) ∧
    (∀ acc, updated.accuracy = some acc →
        0 ≤ acc ∧ acc ≤ 1 ∧ updated.confidence = some (min (9/10) (acc + 1/10))) := by
  rw [updateLearningModel, hfind] at hupd
  simp only [Option.some.injEq, Prod.mk.injEq] at hupd
  obtain ⟨-, hupdated⟩ := hupd
  subst hupdated
  refine ⟨rfl, rfl, ?_, ?_⟩
  · rw [calculateModelAccuracy_eq]
  · intro acc hacc
    simp only [Option.some.injEq] at hacc
    subst hacc
    exact ⟨(calculateModelAccuracy_bounds _).1, (calculateModelAccuracy_bounds _).2, rfl⟩

/-- Feedback record used by the C8 witness. -/
def c8Feedback : UserFeedback := ⟨4, true, none, none, none, none⟩

/-- Training datum carrying helpful feedback, for the C8 witness. -/
def c8Datum : LearningData :=
  ⟨LearningType.supervised, LDInput.rawInput "d", none, some c8Feedback, none, none, none, none⟩

/-- Freshly created model (version 1, empty training data), for the C8 witness. -/
def c8Model : LearningModel := ⟨"model_1", "user_supervised", 1, none, none, [], [], 0, 0⟩

/-- Model table holding only the C8 witness model. -/
def c8Models : List (String × LearningModel) := [("model_1", c8Model)]

/-- The result of the C8 witness update call. -/
def c8Result : List (String × LearningModel) × LearningModel :=
  (updateLearningModel c8Models "model_1" [c8Datum] 7).getD ([], c8Model)

/-- Witness for C8 at a concrete model table and update call. -/
theorem c8_update_learning_model_witness :
    c8Result.snd.version = c8Model.version + 1 ∧
    c8Result.snd.trainingData = c8Model.trainingData ++ [c8Datum] :=
  ⟨(c8_update_learning_model c8Models "model_1" [c8Datum] 7 c8Model
      c8Result.fst c8Result.snd rfl rfl).1,
   (c8_update_learning_model c8Models "model_1" [c8Datum] 7 c8Model
      c8Result.fst c8Result.snd rfl rfl).2.1⟩

/-- Feedback with rating 3 and helpful set to false: the case on which the
claimed rule and the code disagree. -/
def c9Feedback : UserFeedback := ⟨3, false, none, none, none, none⟩

/-- An empty learning context. -/
def c9Context : LearningContext := ⟨none, none, none, none, none, none, none⟩

/-- C9 counterexample: for rating 3 with helpful false the claim demands
priority `high` (helpful == false is a high condition), but the code tests
`rating === 3` before `helpful === false` and records priority `medium`. -/
theorem c9_counterexample :
    (learnFromFeedbackData c9Feedback c9Context 0).priority = some Priority.medium ∧
    c9Feedback.helpful = false ∧
    Priority.medium ≠ Priority.high := by
  have h1 : ¬ (c9Feedback.rating ≤ 2) := by norm_num [c9Feedback]
  have h2 : c9Feedback.rating = 3 := rfl
  refine ⟨?_, rfl, by decide⟩
  simp [learnFromFeedbackData, determinePriority, h1, h2]
  norm_num

/-- C9 (amended): the learning record built by `learnFromFeedback` carries
priority `high` whenever rating is at most 2; priority `medium` whenever
rating equals 3, even when helpful is false; priority `high` when rating
exceeds 2, differs from 3 and helpful is false; and priority `low`
otherwise. -/
theorem c9_amended_priority_rule (feedback : UserFeedback) (context : LearningContext)
    (now : Nat) :
    (learnFromFeedbackData feedback context now).priority = some (determinePriority feedback) ∧
    (feedback.rating ≤ 2 → determinePriority feedback = Priority.high) ∧
    (¬ feedback.rating ≤ 2 → feedback.rating = 3 →
      determinePriority feedback = Priority.medium) ∧
    (¬ feedback.rating ≤ 2 → feedback.rating ≠ 3 → feedback.helpful = false →
      determinePriority feedback = Priority.high) ∧
    (¬ feedback.rating ≤ 2 → feedback.rating ≠ 3 → feedback.helpful = true →
      determinePriority feedback = Priority.low) := by
  refine ⟨rfl, ?_, ?_, ?_, ?_⟩
  · intro h1
    simp [determinePriority, h1]
  · intro h1 h2
    simp [determinePriority, h1, h2]
    norm_num
  · intro h1 h2 h3
    simp [determinePriority, h1, h2, h3]
  · intro h1 h2 h3
    simp [determinePriority, h1, h2, h3]

/-- Feedback with rating 5 and helpful true, for the C9 witness. -/
def c9WitnessFeedback : UserFeedback := ⟨5, true, none, none, none, none⟩

/-- Witness for the amended C9: a rating-5 helpful feedback gets priority low. -/
theorem c9_amended_priority_rule_witness :
    determinePriority c9WitnessFeedback = Priority.low :=
  (c9_amended_priority_rule c9WitnessFeedback c9Context 0).2.2.2.2
    (by norm_num [c9WitnessFeedback]) (by norm_num [c9WitnessFeedback]) rfl

/-- The atom record inside the imported blob of the C10 scenario. -/
def c10ImportedAtom : Atom :=
  Atom.mk (some "atom_1") "ConceptNode" (some "imported") none none none none none

/-- A freshly constructed service: empty store, id counter 1. -/
def c10FreshService : AtomSpaceState := ⟨[], 1⟩

/-- The store reached by importing a blob whose single atom already uses the
id `atom_1`, leaving the id counter untouched at 1. -/
def c10ImportedState : AtomSpaceState :=
  (importAtomSpace (ImportBlob.arrayValue [ImportItem.atomItem c10ImportedAtom])
    c10FreshService).fst

/-- An atom without id, added after the import. -/
def c10NewAtom : Atom :=
  Atom.mk none "PredicateNode" (some "added") none none none none none

/-- C10: generated atom ids are not unique against imported contents — after
any `clearAtomSpace` the first id-less `addAtom` always returns `atom_1`, and
there is a store state reached by `importAtomSpace` (importing an atom with id
`atom_1` into a fresh service, whose counter stays 1) on which an id-less
`addAtom` returns the already-present id `atom_1` and silently replaces the
stored atom, leaving the store size unchanged. -/
theorem c10_generated_ids_collide (s : AtomSpaceState) (a : Atom) (h : a.id = none) :
    (addAtom (clearAtomSpace s) a).snd = "atom_1" ∧
    jsMapGet c10ImportedState.atoms "atom_1" = some c10ImportedAtom ∧
    c10ImportedState.nextAtomId = 1 ∧
    (addAtom c10ImportedState c10NewAtom).snd = "atom_1" ∧
    jsMapGet (addAtom c10ImportedState c10NewAtom).fst.atoms "atom_1" =
      some (c10NewAtom.withId "atom_1") ∧
    (addAtom c10ImportedState c10NewAtom).fst.atoms.length =
      c10ImportedState.atoms.length := by
  refine ⟨?_, rfl, rfl, rfl, rfl, rfl⟩
  simp only [addAtom, clearAtomSpace, h]
  decide

/-- Witness for C10 with a concrete cleared state and id-less atom. -/
theorem c10_generated_ids_collide_witness :
    c10NewAtom.id = none ∧
    (addAtom (clearAtomSpace c10ImportedState) c10NewAtom).snd = "atom_1" :=
  ⟨rfl, (c10_generated_ids_collide c10ImportedState c10NewAtom rfl).1⟩
